import Mathlib

/-!
Shallow embedding of the dollarpe-p2p decision core: the risk assessment
service (class `RiskService`) and the KYC verification service (class
`KYCService`).  Scores are embedded as rationals.  JavaScript truthiness
of numbers and strings is modelled explicitly at the places the source
relies on it (`kyc.riskScore && ...`, `!document.ocrText`, `!address`,
`!result.extractedData.fullName`).  Database lookups and external
providers (OCR pattern extraction, document validation, face match,
liveness, address verification, sanctions list) are passed in as explicit
data / function parameters.
-/

namespace DollarPe

/-- Severity of a risk factor (source union type on `RiskFactor.severity`). -/
inductive Severity
  | LOW
  | MEDIUM
  | HIGH
  | CRITICAL
deriving DecidableEq, Repr

/-- Risk level of an assessment (source union type on `riskLevel`). -/
inductive RiskLevel
  | LOW
  | MEDIUM
  | HIGH
  | CRITICAL
deriving DecidableEq, Repr

/-- Recommendation of the risk engine (source union type on `recommendation`). -/
inductive Recommendation
  | AUTO_APPROVE
  | MANUAL_REVIEW
  | REJECT
deriving DecidableEq, Repr

/-- KYC verification status (source `KycStatus` union in `types/index.ts`;
the KYC service itself only ever produces the last three values). -/
inductive KycStatus
  | PENDING
  | IN_PROGRESS
  | APPROVED
  | REJECTED
  | REQUIRES_REVIEW
deriving DecidableEq, Repr

/-- One risk factor (source `RiskFactor`).  The opaque `details` payload
is dropped: it is never read by any decision function. -/
structure RiskFactor where
  type : String
  severity : Severity
  score : ℚ
  description : String
deriving DecidableEq, Repr

/-- Severity weights used by `calculateOverallScore`
(`weights = { LOW: 0.1, MEDIUM: 0.3, HIGH: 0.6, CRITICAL: 1.0 }`). -/
def severityWeight : Severity → ℚ
  | .LOW => 1/10
  | .MEDIUM => 3/10
  | .HIGH => 6/10
  | .CRITICAL => 1

/-- Source `RISK_THRESHOLDS.LOW` -/
def RISK_THRESHOLDS_LOW : ℚ := 3/10

/-- Source `RISK_THRESHOLDS.MEDIUM` -/
def RISK_THRESHOLDS_MEDIUM : ℚ := 6/10

/-- Source `RISK_THRESHOLDS.HIGH` -/
def RISK_THRESHOLDS_HIGH : ℚ := 8/10

/-- Source `RISK_THRESHOLDS.CRITICAL` -/
def RISK_THRESHOLDS_CRITICAL : ℚ := 1

/-- Source `AUTO_APPROVE_THRESHOLD` -/
def AUTO_APPROVE_THRESHOLD : ℚ := 2/10

/-- Source `MANUAL_REVIEW_THRESHOLD` -/
def MANUAL_REVIEW_THRESHOLD : ℚ := 7/10

/-- Source `RiskService.calculateOverallScore`: severity-weighted mean of the
factor scores; `0` for the empty list.  The source accumulates
`totalWeightedScore` and `totalWeight` in a `forEach` loop starting from
`0`; this is the same left-to-right sum. -/
def calculateOverallScore (factors : List RiskFactor) : ℚ :=
  if factors.length = 0 then 0
  else
    let totalWeightedScore := (factors.map (fun f => f.score * severityWeight f.severity)).sum
    let totalWeight := (factors.map (fun f => severityWeight f.severity)).sum
    if 0 < totalWeight then totalWeightedScore / totalWeight else 0

/-- Source `RiskService.determineRiskLevel`: first-match comparison of the score
against the thresholds, from CRITICAL down. -/
def determineRiskLevel (score : ℚ) : RiskLevel :=
  if RISK_THRESHOLDS_CRITICAL ≤ score then .CRITICAL
  else if RISK_THRESHOLDS_HIGH ≤ score then .HIGH
  else if RISK_THRESHOLDS_MEDIUM ≤ score then .MEDIUM
  else .LOW

/-- Source `RiskService.determineRecommendation`: critical factors force REJECT;
then high factors or a score at/above the manual-review threshold force
MANUAL_REVIEW; then a score at/below the auto-approve threshold gives
AUTO_APPROVE; the default is MANUAL_REVIEW. -/
def determineRecommendation (score : ℚ) (factors : List RiskFactor) : Recommendation :=
  if 0 < (factors.filter (fun f => f.severity == Severity.CRITICAL)).length then .REJECT
  else if 0 < (factors.filter (fun f => f.severity == Severity.HIGH)).length
      ∨ MANUAL_REVIEW_THRESHOLD ≤ score then .MANUAL_REVIEW
  else if score ≤ AUTO_APPROVE_THRESHOLD then .AUTO_APPROVE
  else .MANUAL_REVIEW

/-- A chat message as seen by the risk service (`content`, `isFromUser`;
`isFromUser` is set from `isFromCounterparty` when the message is
recorded, so `true` means counterparty-authored). -/
structure ChatMessage where
  content : String
  isFromUser : Bool
deriving DecidableEq, Repr

/-- A stored document (fields used by the two services). -/
structure Document where
  id : String
  orderId : String
  fileType : String
  ocrText : Option String
  ocrConfidence : Option ℚ
  status : String
deriving DecidableEq, Repr

/-- A stored KYC verification record as read by the risk service. -/
structure KycVerification where
  status : KycStatus
  riskScore : Option ℚ
deriving DecidableEq, Repr

/-- A P2P order with its included relations, as fetched at the top of
`RiskService.assessOrder`.  `createdAtHour` embeds
`new Date(order.createdAt).getHours()`. -/
structure Order where
  id : String
  amount : ℚ
  paymentMethod : String
  counterpartyId : String
  createdAtHour : ℕ
  documents : List Document
  chatMessages : List ChatMessage
  kycVerification : Option KycVerification
deriving DecidableEq, Repr

/-- A historical order of the counterparty, as returned by the lookup
helpers (`getRecentOrdersByCounterparty`, `getCounterpartyOrderHistory`).
`isWithinLast30Days` embeds `createdAt > now - 30 days`. -/
structure HistOrder where
  amount : ℚ
  status : String
  isWithinLast30Days : Bool
deriving DecidableEq, Repr

/-- Character-list matcher: the needle occurs at the head of the hay. -/
def firstMatches : List Char → List Char → Bool
  | [], _ => true
  | _ :: _, [] => false
  | a :: as, b :: bs => a == b && firstMatches as bs

/-- Character-list matcher: the needle occurs somewhere in the hay.
Model of JavaScript `hay.includes(needle)`. -/
def containsSub (needle : List Char) : List Char → Bool
  | [] => firstMatches needle []
  | c :: rest => firstMatches needle (c :: rest) || containsSub needle rest

/-- Model of JavaScript `s.includes(sub)`. -/
def jsIncludes (s sub : String) : Bool := containsSub sub.toList s.toList

/-- Model of the JavaScript guard `x && x < t` for a possibly-missing
number `x`: a missing value and the number `0` are both falsy, so the
guard holds only for a present, nonzero value below `t`. -/
def jsScoreBelow (x : Option ℚ) (t : ℚ) : Bool :=
  match x with
  | none => false
  | some s => decide (s ≠ 0) && decide (s < t)

/-- Source `RiskService.assessOrderAmount`: value bands plus deviation from the
counterparty's recent (720-hour) average amount. -/
def assessOrderAmount (order : Order) (recentOrders : List HistOrder) : List RiskFactor :=
  (if order.amount > 10000 then
    [⟨"HIGH_VALUE_ORDER", .HIGH, 8/10, "Order amount exceeds high-value threshold"⟩]
   else if order.amount > 5000 then
    [⟨"MEDIUM_VALUE_ORDER", .MEDIUM, 4/10, "Order amount is in medium-value range"⟩]
   else [])
  ++
  (if 0 < recentOrders.length then
    (let avgAmount := (recentOrders.map (fun o => o.amount)).sum / (recentOrders.length : ℚ)
     let deviation := |order.amount - avgAmount| / avgAmount
     if deviation > 2 then
      [⟨"UNUSUAL_AMOUNT_PATTERN", .MEDIUM, 5/10,
        "Order amount significantly deviates from historical pattern"⟩]
     else [])
   else [])

/-- Source `RiskService.assessCounterpartyRisk`: empty history, recent disputes
and the completion rate over the order history. -/
def assessCounterpartyRisk (counterpartyOrders : List HistOrder) : List RiskFactor :=
  (if counterpartyOrders.length = 0 then
    [⟨"NEW_COUNTERPARTY", .MEDIUM, 4/10, "First-time counterparty with no transaction history"⟩]
   else [])
  ++
  (if 0 < (counterpartyOrders.filter
      (fun o => o.status == "DISPUTED" && o.isWithinLast30Days)).length then
    [⟨"RECENT_DISPUTES", .HIGH, 7/10, "Counterparty has recent disputed transactions"⟩]
   else [])
  ++
  (let completedOrders := counterpartyOrders.filter (fun o => o.status == "COMPLETED")
   let completionRate : ℚ :=
     if 0 < counterpartyOrders.length then
       (completedOrders.length : ℚ) / (counterpartyOrders.length : ℚ)
     else 0
   if completionRate < 8/10 ∧ 5 ≤ counterpartyOrders.length then
    [⟨"LOW_COMPLETION_RATE", .MEDIUM, 5/10, "Counterparty has low order completion rate"⟩]
   else [])

/-- Source `highRiskMethods` -/
def highRiskMethods : List String := ["CASH", "GIFT_CARDS", "PREPAID_CARDS"]

/-- Source `mediumRiskMethods` -/
def mediumRiskMethods : List String := ["PAYPAL", "VENMO", "CASHAPP"]

/-- Source `RiskService.assessPaymentMethodRisk` -/
def assessPaymentMethodRisk (order : Order) : List RiskFactor :=
  if order.paymentMethod ∈ highRiskMethods then
    [⟨"HIGH_RISK_PAYMENT_METHOD", .HIGH, 6/10, "Payment method has high fraud risk"⟩]
  else if order.paymentMethod ∈ mediumRiskMethods then
    [⟨"MEDIUM_RISK_PAYMENT_METHOD", .MEDIUM, 3/10, "Payment method has moderate fraud risk"⟩]
  else []

/-- Source `RiskService.assessDocumentRisk`: no documents short-circuits;
otherwise low-OCR-confidence (JS-truthy `doc.ocrConfidence && < 0.7`) and
FAILED-status documents are flagged. -/
def assessDocumentRisk (order : Order) : List RiskFactor :=
  if order.documents.length = 0 then
    [⟨"NO_DOCUMENTS", .HIGH, 8/10, "No identity documents provided"⟩]
  else
    (if 0 < (order.documents.filter (fun doc => jsScoreBelow doc.ocrConfidence (7/10))).length then
      [⟨"LOW_DOCUMENT_QUALITY", .MEDIUM, 4/10, "Some documents have low OCR confidence"⟩]
     else [])
    ++
    (if 0 < (order.documents.filter (fun doc => doc.status == "FAILED")).length then
      [⟨"DOCUMENT_PROCESSING_FAILED", .HIGH, 7/10, "Some documents failed to process"⟩]
     else [])

/-- Source `suspiciousKeywords` -/
def suspiciousKeywords : List String := ["urgent", "hurry", "quick", "fast", "emergency", "problem"]

/-- Source `RiskService.assessCommunicationRisk`: an empty chat-message list
short-circuits with the no-communication factor; otherwise
counterparty-authored (`isFromUser`) messages are scanned, lowercased,
for urgency keywords, and their count is compared against 20. -/
def assessCommunicationRisk (order : Order) : List RiskFactor :=
  if order.chatMessages.length = 0 then
    [⟨"NO_COMMUNICATION", .MEDIUM, 3/10, "No communication from counterparty"⟩]
  else
    let userMessages := order.chatMessages.filter (fun msg => msg.isFromUser)
    (if 0 < (userMessages.filter (fun msg =>
        suspiciousKeywords.any (fun keyword =>
          containsSub keyword.toList (msg.content.toList.map Char.toLower)))).length then
      [⟨"SUSPICIOUS_COMMUNICATION", .MEDIUM, 4/10, "Communication contains urgency indicators"⟩]
     else [])
    ++
    (if 20 < userMessages.length then
      [⟨"EXCESSIVE_MESSAGING", .LOW, 2/10, "Unusually high number of messages"⟩]
     else [])

/-- Source `RiskService.assessKYCRisk`: missing record, REJECTED status,
REQUIRES_REVIEW status, then the JS-truthy guard
`kyc.riskScore && kyc.riskScore < 0.6`. -/
def assessKYCRisk (order : Order) : List RiskFactor :=
  match order.kycVerification with
  | none => [⟨"NO_KYC_VERIFICATION", .HIGH, 9/10, "KYC verification not completed"⟩]
  | some kyc =>
    if kyc.status = KycStatus.REJECTED then
      [⟨"KYC_REJECTED", .CRITICAL, 1, "KYC verification was rejected"⟩]
    else if kyc.status = KycStatus.REQUIRES_REVIEW then
      [⟨"KYC_REQUIRES_REVIEW", .HIGH, 7/10, "KYC verification requires manual review"⟩]
    else if jsScoreBelow kyc.riskScore (6/10) then
      [⟨"LOW_KYC_SCORE", .MEDIUM, 5/10, "KYC verification score is below threshold"⟩]
    else []

/-- Source `RiskService.assessBehavioralRisk`: creation hour outside [6,22] and
more than 3 orders in the trailing 24 hours. -/
def assessBehavioralRisk (order : Order) (recentOrders24 : List HistOrder) : List RiskFactor :=
  (if order.createdAtHour < 6 ∨ 22 < order.createdAtHour then
    [⟨"UNUSUAL_TIMING", .LOW, 1/10, "Order created during unusual hours"⟩]
   else [])
  ++
  (if 3 < recentOrders24.length then
    [⟨"RAPID_ORDERS", .MEDIUM, 4/10, "Multiple orders in short time period"⟩]
   else [])

/-- Inputs of one risk assessment: the fetched order plus the three
historical-order lookups done by the assessors (720-hour window, full
history capped at 50, 24-hour window). -/
structure AssessInput where
  order : Order
  recentOrders720 : List HistOrder
  counterpartyHistory : List HistOrder
  recentOrders24 : List HistOrder

/-- Source `RiskAssessmentResult` (notes and the stored record are omitted;
they are never read by a decision function). -/
structure RiskAssessmentResult where
  orderId : String
  overallScore : ℚ
  riskLevel : RiskLevel
  recommendation : Recommendation
  factors : List RiskFactor
  autoApproved : Bool
  reviewRequired : Bool
deriving DecidableEq, Repr

/-- The factor list accumulated by `assessOrder`, in assessor invocation
order. -/
def assessFactors (i : AssessInput) : List RiskFactor :=
  assessOrderAmount i.order i.recentOrders720
  ++ assessCounterpartyRisk i.counterpartyHistory
  ++ assessPaymentMethodRisk i.order
  ++ assessDocumentRisk i.order
  ++ assessCommunicationRisk i.order
  ++ assessKYCRisk i.order
  ++ assessBehavioralRisk i.order i.recentOrders24

/-- Source `RiskService.assessOrder` (decision core: factor accumulation,
aggregation, risk level, recommendation, projections). -/
def assessOrder (i : AssessInput) : RiskAssessmentResult :=
  let factors := assessFactors i
  let overallScore := calculateOverallScore factors
  let recommendation := determineRecommendation overallScore factors
  { orderId := i.order.id
    overallScore := overallScore
    riskLevel := determineRiskLevel overallScore
    recommendation := recommendation
    factors := factors
    autoApproved := recommendation == Recommendation.AUTO_APPROVE
    reviewRequired := recommendation == Recommendation.MANUAL_REVIEW }

/-- Written from the spec's words for the refinement comparison of the
aggregator: severity-weighted mean `Σ(score·weight)/Σ(weight)`, with `0`
for the empty factor list. -/
def specWeightedMean (factors : List RiskFactor) : ℚ :=
  if factors = [] then 0
  else (factors.map (fun f => f.score * severityWeight f.severity)).sum /
       (factors.map (fun f => severityWeight f.severity)).sum

theorem severityWeight_pos (s : Severity) : 0 < severityWeight s := by
  cases s <;> norm_num [severityWeight]

theorem filter_severity_pos (factors : List RiskFactor) (s : Severity) :
    0 < (factors.filter (fun f => f.severity == s)).length ↔
      ∃ f ∈ factors, f.severity = s := by
  induction factors with
  | nil => simp
  | cons a t ih =>
    by_cases h : a.severity = s <;>
      simp [List.filter_cons, h, ih, List.mem_cons]

/-- C1: the recommendation is the first-match decision tree
(CRITICAL factor → REJECT; HIGH factor or score ≥ 0.7 → MANUAL_REVIEW;
score ≤ 0.2 → AUTO_APPROVE; otherwise MANUAL_REVIEW), and in particular a
CRITICAL factor forces REJECT regardless of the score and of the other
factors. -/
theorem C1_recommendation_decision_tree (score : ℚ) (factors : List RiskFactor) :
    (determineRecommendation score factors =
      (if ∃ f ∈ factors, f.severity = Severity.CRITICAL then Recommendation.REJECT
       else if (∃ f ∈ factors, f.severity = Severity.HIGH) ∨ (7/10 : ℚ) ≤ score then
         Recommendation.MANUAL_REVIEW
       else if score ≤ (2/10 : ℚ) then Recommendation.AUTO_APPROVE
       else Recommendation.MANUAL_REVIEW))
    ∧ ((∃ f ∈ factors, f.severity = Severity.CRITICAL) →
        determineRecommendation score factors = Recommendation.REJECT) := by
  constructor
  · simp only [determineRecommendation, filter_severity_pos,
      MANUAL_REVIEW_THRESHOLD, AUTO_APPROVE_THRESHOLD]
  · intro hc
    unfold determineRecommendation
    rw [if_pos ((filter_severity_pos factors Severity.CRITICAL).2 hc)]

/-- Witness for C1 at a concrete input: a single CRITICAL factor with a
low overall score still yields REJECT. -/
theorem C1_recommendation_decision_tree_witness :
    determineRecommendation 0
      [⟨"KYC_REJECTED", Severity.CRITICAL, 1, "KYC verification was rejected"⟩] =
      Recommendation.REJECT :=
  (C1_recommendation_decision_tree 0
      [⟨"KYC_REJECTED", Severity.CRITICAL, 1, "KYC verification was rejected"⟩]).2
    (by decide)

/-- C2 counterexample: the claim says a score of exactly 0.3 maps to
MEDIUM, but the code maps 0.3 to LOW (the thresholds are used as lower
bounds of the next level up: `score ≥ 0.6 → MEDIUM` is the first matching
branch below HIGH/CRITICAL, everything under 0.6 is LOW). -/
theorem C2_riskLevel_counterexample :
    determineRiskLevel (3/10) = RiskLevel.LOW ∧ RiskLevel.LOW ≠ RiskLevel.MEDIUM := by
  constructor
  · norm_num [determineRiskLevel, RISK_THRESHOLDS_CRITICAL, RISK_THRESHOLDS_HIGH,
      RISK_THRESHOLDS_MEDIUM]
  · simp

/-- C2 (amended): the derived risk level is a function of the score alone
with bands LOW for s < 0.6, MEDIUM for 0.6 ≤ s < 0.8, HIGH for
0.8 ≤ s < 1, CRITICAL for s ≥ 1. -/
theorem C2_riskLevel_bands (s : ℚ) :
    (determineRiskLevel s = RiskLevel.LOW ↔ s < 6/10)
    ∧ (determineRiskLevel s = RiskLevel.MEDIUM ↔ (6/10 : ℚ) ≤ s ∧ s < 8/10)
    ∧ (determineRiskLevel s = RiskLevel.HIGH ↔ (8/10 : ℚ) ≤ s ∧ s < 1)
    ∧ (determineRiskLevel s = RiskLevel.CRITICAL ↔ (1 : ℚ) ≤ s) := by
  unfold determineRiskLevel RISK_THRESHOLDS_CRITICAL RISK_THRESHOLDS_HIGH
    RISK_THRESHOLDS_MEDIUM
  split_ifs with h1 h2 h3 <;>
    refine ⟨?_, ?_, ?_, ?_⟩ <;> simp <;>
    first
      | linarith
      | (constructor <;> linarith)
      | (intro h; linarith)

/-- C3: the aggregated overall score is exactly the severity-weighted
mean of the factor scores; when every individual factor score lies in
[0,1] the overall score lies in [0,1]; the empty list gives exactly 0. -/
theorem C3_overall_score_weighted_mean (factors : List RiskFactor)
    (h : ∀ f ∈ factors, 0 ≤ f.score ∧ f.score ≤ 1) :
    calculateOverallScore factors = specWeightedMean factors
    ∧ 0 ≤ calculateOverallScore factors
    ∧ calculateOverallScore factors ≤ 1
    ∧ (factors = [] → calculateOverallScore factors = 0) := by
  by_cases hnil : factors = []
  · subst hnil
    simp [calculateOverallScore, specWeightedMean]
  · have hw_pos : 0 < (factors.map (fun f => severityWeight f.severity)).sum := by
      apply List.sum_pos
      · intro a ha
        rcases List.mem_map.1 ha with ⟨f, _, rfl⟩
        exact severityWeight_pos _
      · simpa using hnil
    have hws_nonneg : 0 ≤ (factors.map (fun f => f.score * severityWeight f.severity)).sum := by
      apply List.sum_nonneg
      intro a ha
      rcases List.mem_map.1 ha with ⟨f, hf, rfl⟩
      exact mul_nonneg (h f hf).1 (severityWeight_pos f.severity).le
    have hle : (factors.map (fun f => f.score * severityWeight f.severity)).sum ≤
        (factors.map (fun f => severityWeight f.severity)).sum := by
      apply List.sum_le_sum
      intro f hf
      exact mul_le_of_le_one_left (severityWeight_pos f.severity).le (h f hf).2
    have hlen : ¬ factors.length = 0 := by simpa [List.length_eq_zero] using hnil
    have hval : calculateOverallScore factors =
        (factors.map (fun f => f.score * severityWeight f.severity)).sum /
          (factors.map (fun f => severityWeight f.severity)).sum := by
      unfold calculateOverallScore
      rw [if_neg hlen, if_pos hw_pos]
    refine ⟨?_, ?_, ?_, fun hc => absurd hc hnil⟩
    · rw [hval, specWeightedMean, if_neg hnil]
    · rw [hval]
      exact div_nonneg hws_nonneg hw_pos.le
    · rw [hval]
      exact (div_le_one hw_pos).2 hle

/-- Witness for C3 at a concrete factor list. -/
theorem C3_overall_score_weighted_mean_witness :
    calculateOverallScore [⟨"HIGH_VALUE_ORDER", Severity.HIGH, 8/10, "d"⟩] =
      specWeightedMean [⟨"HIGH_VALUE_ORDER", Severity.HIGH, 8/10, "d"⟩]
    ∧ 0 ≤ calculateOverallScore [⟨"HIGH_VALUE_ORDER", Severity.HIGH, 8/10, "d"⟩]
    ∧ calculateOverallScore [⟨"HIGH_VALUE_ORDER", Severity.HIGH, 8/10, "d"⟩] ≤ 1
    ∧ ([⟨"HIGH_VALUE_ORDER", Severity.HIGH, 8/10, "d"⟩] = ([] : List RiskFactor) →
        calculateOverallScore [⟨"HIGH_VALUE_ORDER", Severity.HIGH, 8/10, "d"⟩] = 0) :=
  C3_overall_score_weighted_mean _ (by
    intro f hf
    rcases List.mem_singleton.1 hf with rfl
    refine ⟨?_, ?_⟩ <;> norm_num)

/-- Scenario 1 order: amount 12000, payment method CASH, no documents,
no chat messages, no KYC record, created at hour 12. -/
def scenario1Order : Order :=
  { id := "order-1", amount := 12000, paymentMethod := "CASH", counterpartyId := "cp-1",
    createdAtHour := 12, documents := [], chatMessages := [], kycVerification := none }

/-- Scenario 1 assessment input: first-time counterparty, so all three
historical lookups are empty. -/
def scenario1 : AssessInput :=
  { order := scenario1Order, recentOrders720 := [], counterpartyHistory := [],
    recentOrders24 := [] }

/-- The six factors scenario 1 produces, in assessor invocation order. -/
def scenario1Factors : List RiskFactor :=
  [⟨"HIGH_VALUE_ORDER", .HIGH, 8/10, "Order amount exceeds high-value threshold"⟩,
   ⟨"NEW_COUNTERPARTY", .MEDIUM, 4/10, "First-time counterparty with no transaction history"⟩,
   ⟨"HIGH_RISK_PAYMENT_METHOD", .HIGH, 6/10, "Payment method has high fraud risk"⟩,
   ⟨"NO_DOCUMENTS", .HIGH, 8/10, "No identity documents provided"⟩,
   ⟨"NO_COMMUNICATION", .MEDIUM, 3/10, "No communication from counterparty"⟩,
   ⟨"NO_KYC_VERIFICATION", .HIGH, 9/10, "KYC verification not completed"⟩]

theorem scenario1_assessFactors : assessFactors scenario1 = scenario1Factors := by
  norm_num [assessFactors, assessOrderAmount, assessCounterpartyRisk, assessPaymentMethodRisk,
    assessDocumentRisk, assessCommunicationRisk, assessKYCRisk, assessBehavioralRisk,
    scenario1, scenario1Order, scenario1Factors, highRiskMethods, mediumRiskMethods]

theorem scenario1_overallScore : calculateOverallScore scenario1Factors = 69/100 := by
  norm_num [calculateOverallScore, scenario1Factors, severityWeight]

/-- C7 counterexample: scenario 1's aggregated overall score is exactly
0.69, which is not in the claimed 0.76–0.80 band, and the derived risk
level is MEDIUM, not the claimed HIGH. -/
theorem C7_scenario1_counterexample :
    (assessOrder scenario1).overallScore = 69/100
    ∧ ¬((76/100 : ℚ) ≤ (assessOrder scenario1).overallScore
        ∧ (assessOrder scenario1).overallScore ≤ 80/100)
    ∧ (assessOrder scenario1).riskLevel = RiskLevel.MEDIUM
    ∧ (assessOrder scenario1).riskLevel ≠ RiskLevel.HIGH := by
  have hsc : (assessOrder scenario1).overallScore = 69/100 := by
    show calculateOverallScore (assessFactors scenario1) = 69/100
    rw [scenario1_assessFactors]
    exact scenario1_overallScore
  have hrl : (assessOrder scenario1).riskLevel = RiskLevel.MEDIUM := by
    show determineRiskLevel (calculateOverallScore (assessFactors scenario1)) = _
    rw [scenario1_assessFactors, scenario1_overallScore]
    norm_num [determineRiskLevel, RISK_THRESHOLDS_CRITICAL, RISK_THRESHOLDS_HIGH,
      RISK_THRESHOLDS_MEDIUM]
  refine ⟨hsc, ?_, hrl, ?_⟩
  · rw [hsc]
    norm_num
  · rw [hrl]
    simp

/-- C7 (amended): for an order with amount 12000, a counterparty with no
prior orders, payment method CASH, zero documents, zero chat messages
and no KYC record, the assessment produces exactly the six factors
HIGH(0.8) amount, MEDIUM(0.4) new-counterparty, HIGH(0.6)
payment-method, HIGH(0.8) no-documents, MEDIUM(0.3) no-communication,
HIGH(0.9) no-KYC, an overall score of exactly 0.69, risk level MEDIUM,
and recommendation MANUAL_REVIEW. -/
theorem C7_scenario1_amended :
    (assessOrder scenario1).factors = scenario1Factors
    ∧ (assessOrder scenario1).overallScore = 69/100
    ∧ (assessOrder scenario1).riskLevel = RiskLevel.MEDIUM
    ∧ (assessOrder scenario1).recommendation = Recommendation.MANUAL_REVIEW := by
  have hsc : (assessOrder scenario1).overallScore = 69/100 := by
    show calculateOverallScore (assessFactors scenario1) = 69/100
    rw [scenario1_assessFactors]
    exact scenario1_overallScore
  have hrl : (assessOrder scenario1).riskLevel = RiskLevel.MEDIUM := by
    show determineRiskLevel (calculateOverallScore (assessFactors scenario1)) = _
    rw [scenario1_assessFactors, scenario1_overallScore]
    norm_num [determineRiskLevel, RISK_THRESHOLDS_CRITICAL, RISK_THRESHOLDS_HIGH,
      RISK_THRESHOLDS_MEDIUM]
  have hrec : (assessOrder scenario1).recommendation = Recommendation.MANUAL_REVIEW := by
    show determineRecommendation (calculateOverallScore (assessFactors scenario1))
      (assessFactors scenario1) = _
    rw [scenario1_assessFactors]
    have hnc : ¬ 0 < (scenario1Factors.filter
        (fun f => f.severity == Severity.CRITICAL)).length := by
      rw [filter_severity_pos]
      simp [scenario1Factors]
    have hh : 0 < (scenario1Factors.filter
        (fun f => f.severity == Severity.HIGH)).length := by
      rw [filter_severity_pos]
      exact ⟨⟨"HIGH_VALUE_ORDER", .HIGH, 8/10, "Order amount exceeds high-value threshold"⟩,
        by simp [scenario1Factors], rfl⟩
    unfold determineRecommendation
    rw [if_neg hnc, if_pos (Or.inl hh)]
  exact ⟨by show assessFactors scenario1 = _; exact scenario1_assessFactors, hsc, hrl, hrec⟩

/-- Order whose only chat message is not counterparty-authored
(`isFromUser = false`): the counterparty has written zero messages but
the message list is nonempty. -/
def c8Order : Order :=
  { id := "order-2", amount := 100, paymentMethod := "BANK_TRANSFER", counterpartyId := "cp-2",
    createdAtHour := 12, documents := [], chatMessages := [⟨"hello", false⟩],
    kycVerification := none }

/-- C8 counterexample: an order whose counterparty has authored zero
chat messages (but whose message list is nonempty) yields no
communication factor at all — the short-circuit keys on the whole
message list, not on counterparty-authored messages. -/
theorem C8_no_communication_counterexample :
    c8Order.chatMessages.filter (fun m => m.isFromUser) = []
    ∧ assessCommunicationRisk c8Order = []
    ∧ (⟨"NO_COMMUNICATION", Severity.MEDIUM, 3/10,
        "No communication from counterparty"⟩ : RiskFactor) ∉
        assessCommunicationRisk c8Order := by
  have h1 : assessCommunicationRisk c8Order = [] := by
    simp [assessCommunicationRisk, c8Order]
  exact ⟨by simp [c8Order], h1, by rw [h1]; simp⟩

/-- C8 (amended): for every order whose chat-message list is empty (no
messages from anyone), the communication assessor emits exactly the
MEDIUM 0.3 no-communication factor and nothing else. -/
theorem C8_no_communication_amended (order : Order) (h : order.chatMessages = []) :
    assessCommunicationRisk order =
      [⟨"NO_COMMUNICATION", Severity.MEDIUM, 3/10, "No communication from counterparty"⟩] := by
  simp [assessCommunicationRisk, h]

/-- Witness for the amended C8 at a concrete order with no messages. -/
theorem C8_no_communication_amended_witness :
    assessCommunicationRisk scenario1Order =
      [⟨"NO_COMMUNICATION", Severity.MEDIUM, 3/10, "No communication from counterparty"⟩] :=
  C8_no_communication_amended scenario1Order rfl

/-- Order with a stored KYC record: status APPROVED, stored risk score
exactly 0. -/
def c9Order : Order :=
  { id := "order-3", amount := 100, paymentMethod := "BANK_TRANSFER", counterpartyId := "cp-3",
    createdAtHour := 12, documents := [], chatMessages := [],
    kycVerification := some ⟨KycStatus.APPROVED, some 0⟩ }

/-- C9 counterexample: a stored KYC risk score of exactly 0 is below
0.6, yet the KYC assessor emits no factor, because the JavaScript guard
`kyc.riskScore && kyc.riskScore < 0.6` treats 0 as falsy. -/
theorem C9_low_kyc_score_counterexample :
    c9Order.kycVerification = some ⟨KycStatus.APPROVED, some 0⟩
    ∧ (0 : ℚ) < 6/10
    ∧ assessKYCRisk c9Order = [] := by
  have hguard : jsScoreBelow (some 0) (6/10) = false := by
    simp [jsScoreBelow]
  refine ⟨rfl, by norm_num, ?_⟩
  simp [assessKYCRisk, c9Order, hguard]

/-- C9 (amended): for every order whose stored KYC record has a status
other than REJECTED and REQUIRES_REVIEW and whose stored risk score is
present, nonzero and below 0.6, the KYC assessor emits exactly the
MEDIUM 0.5 low-KYC-score factor; a stored score of exactly 0 emits no
factor. -/
theorem C9_low_kyc_score_amended (order : Order) (kyc : KycVerification) (s : ℚ)
    (hkv : order.kycVerification = some kyc)
    (h1 : kyc.status ≠ KycStatus.REJECTED)
    (h2 : kyc.status ≠ KycStatus.REQUIRES_REVIEW)
    (h3 : kyc.riskScore = some s) (h4 : s ≠ 0) (h5 : s < 6/10) :
    assessKYCRisk order =
      [⟨"LOW_KYC_SCORE", Severity.MEDIUM, 5/10, "KYC verification score is below threshold"⟩] := by
  have hguard : jsScoreBelow kyc.riskScore (6/10) = true := by
    rw [h3]
    simp [jsScoreBelow, h4, h5]
  simp [assessKYCRisk, hkv, h1, h2, hguard]

/-- Order with a stored KYC record: status APPROVED, stored risk score
0.5. -/
def c9WitnessOrder : Order :=
  { id := "order-4", amount := 100, paymentMethod := "BANK_TRANSFER", counterpartyId := "cp-4",
    createdAtHour := 12, documents := [], chatMessages := [],
    kycVerification := some ⟨KycStatus.APPROVED, some (1/2)⟩ }

/-- Witness for the amended C9 at a concrete order with an APPROVED KYC
record whose stored score is 0.5. -/
theorem C9_low_kyc_score_amended_witness :
    assessKYCRisk c9WitnessOrder =
      [⟨"LOW_KYC_SCORE", Severity.MEDIUM, 5/10, "KYC verification score is below threshold"⟩] :=
  C9_low_kyc_score_amended c9WitnessOrder ⟨KycStatus.APPROVED, some (1/2)⟩ (1/2)
    rfl (by simp) (by simp) rfl (by norm_num) (by norm_num)

/-- The fixed five-slot KYC checklist (`KYCResult.checks`). -/
structure KYCChecks where
  documentValid : Bool
  faceMatch : Bool
  livenessCheck : Bool
  sanctionsCheck : Bool
  addressVerification : Bool
deriving DecidableEq, Repr

/-- Source `KYCResult.extractedData`.  Dates are kept as the raw matched strings
(`parseDate` only wraps them and no claim reads them); the fields the
pipeline never writes (`nationality`, `issueDate`, `expiryDate`) are
omitted. -/
structure KYCExtractedData where
  fullName : Option String
  dateOfBirth : Option String
  documentNumber : Option String
  address : Option String
deriving DecidableEq, Repr

/-- Source `KYCResult` (the `recommendations` list is kept for shape; the
pipeline never writes it). -/
structure KYCResult where
  status : KycStatus
  score : ℚ
  checks : KYCChecks
  extractedData : KYCExtractedData
  riskFactors : List String
  recommendations : List String
deriving DecidableEq, Repr

/-- The summed check weights of `calculateKYCScore`
(`{documentValid: 0.3, faceMatch: 0.2, livenessCheck: 0.15,
sanctionsCheck: 0.25, addressVerification: 0.1}`), added in the object's
entry order. -/
def checkWeightSum (c : KYCChecks) : ℚ :=
  (if c.documentValid then 3/10 else 0)
  + (if c.faceMatch then 2/10 else 0)
  + (if c.livenessCheck then 15/100 else 0)
  + (if c.sanctionsCheck then 25/100 else 0)
  + (if c.addressVerification then 1/10 else 0)

/-- Source `KYCService.calculateKYCScore`: weights of the passed checks minus
0.1 per accumulated risk-factor string, floored at 0 by `Math.max`. -/
def calculateKYCScore (result : KYCResult) : ℚ :=
  max 0 (checkWeightSum result.checks - (result.riskFactors.length : ℚ) * (1/10))

/-- JS `f.includes('sanctions')` on a risk-factor reason. -/
def mentionsSanctions (f : String) : Bool := jsIncludes f "sanctions"

/-- Source `KYCService.determineKYCStatus`. -/
def determineKYCStatus (result : KYCResult) : KycStatus :=
  if (9/10 : ℚ) ≤ result.score ∧ result.riskFactors.length = 0 then .APPROVED
  else if result.score < 3/10 ∨ result.riskFactors.any mentionsSanctions then .REJECTED
  else .REQUIRES_REVIEW

/-- Scenario 3 KYC result before scoring: documentValid, faceMatch,
livenessCheck and addressVerification passed, sanctionsCheck failed, one
sanctions-related risk reason. -/
def scenario3Result : KYCResult :=
  { status := .REQUIRES_REVIEW, score := 0,
    checks := ⟨true, true, true, false, true⟩,
    extractedData := ⟨none, none, none, none⟩,
    riskFactors := ["Name found on sanctions list"],
    recommendations := [] }

/-- C4: the KYC status classifier returns APPROVED exactly when the
score is at least 0.9 and the accumulated risk-reason list is empty,
REJECTED whenever the score is below 0.3 or some reason mentions
"sanctions", and REQUIRES_REVIEW in every remaining case; and in the
concrete scenario (four checks passed, sanctions failed, one
sanctions-related reason) the score is 0.65 and the status REJECTED. -/
theorem C4_kyc_status_classifier (r : KYCResult) :
    (determineKYCStatus r = KycStatus.APPROVED ↔ (9/10 : ℚ) ≤ r.score ∧ r.riskFactors = [])
    ∧ ((r.score < 3/10 ∨ ∃ f ∈ r.riskFactors, mentionsSanctions f) →
        determineKYCStatus r = KycStatus.REJECTED)
    ∧ (¬((9/10 : ℚ) ≤ r.score ∧ r.riskFactors = []) →
       ¬(r.score < 3/10 ∨ ∃ f ∈ r.riskFactors, mentionsSanctions f) →
        determineKYCStatus r = KycStatus.REQUIRES_REVIEW)
    ∧ calculateKYCScore scenario3Result = 13/20
    ∧ determineKYCStatus { scenario3Result with score := 13/20 } = KycStatus.REJECTED := by
  refine ⟨?_, ?_, ?_, ?_, ?_⟩
  · unfold determineKYCStatus
    split_ifs with h1 h2
    · exact iff_of_true rfl ⟨h1.1, List.length_eq_zero.1 h1.2⟩
    · refine iff_of_false (by simp) ?_
      rintro ⟨ha, hb⟩
      exact h1 ⟨ha, by simp [hb]⟩
    · refine iff_of_false (by simp) ?_
      rintro ⟨ha, hb⟩
      exact h1 ⟨ha, by simp [hb]⟩
  · intro h
    unfold determineKYCStatus
    split_ifs with h1 h2
    · exfalso
      rcases h with h | ⟨f, hf, _⟩
      · linarith [h1.1]
      · rw [List.length_eq_zero] at h1
        rw [h1.2] at hf
        simp at hf
    · rfl
    · exfalso
      apply h2
      rcases h with h | ⟨f, hf, hm⟩
      · exact Or.inl h
      · exact Or.inr (List.any_eq_true.2 ⟨f, hf, hm⟩)
  · intro hn1 hn2
    unfold determineKYCStatus
    split_ifs with h1 h2
    · exact absurd ⟨h1.1, List.length_eq_zero.1 h1.2⟩ hn1
    · exfalso
      apply hn2
      rcases h2 with h | h
      · exact Or.inl h
      · exact Or.inr (List.any_eq_true.1 h)
    · rfl
  · have hdiff : checkWeightSum scenario3Result.checks -
        ((scenario3Result.riskFactors.length : ℚ)) * (1/10) = 13/20 := by
      norm_num [checkWeightSum, scenario3Result]
    rw [calculateKYCScore, hdiff, max_eq_right (by norm_num : (0:ℚ) ≤ 13/20)]
  · have hm : mentionsSanctions "Name found on sanctions list" = true := by decide
    norm_num [determineKYCStatus, scenario3Result, hm]

/-- Witness for C4: the REJECTED branch applied at the scenario-3
result. -/
theorem C4_kyc_status_classifier_witness :
    determineKYCStatus { scenario3Result with score := 13/20 } = KycStatus.REJECTED :=
  (C4_kyc_status_classifier { scenario3Result with score := 13/20 }).2.1
    (Or.inr ⟨"Name found on sanctions list", by simp [scenario3Result], by decide⟩)

/-- C5: the KYC score is exactly the fixed-weight sum over passed checks
minus 0.1 per accumulated risk reason, floored at 0; it is never
negative, and it is exactly 0 whenever the penalty reaches or exceeds
the passed-check weight sum. -/
theorem C5_kyc_score_clamped (r : KYCResult) :
    calculateKYCScore r =
      max 0 (checkWeightSum r.checks - (r.riskFactors.length : ℚ) * (1/10))
    ∧ 0 ≤ calculateKYCScore r
    ∧ (checkWeightSum r.checks - (r.riskFactors.length : ℚ) * (1/10) ≤ 0 →
        calculateKYCScore r = 0) :=
  ⟨rfl, le_max_left _ _, fun h => max_eq_left h⟩

/-- A KYC result with no passed checks and two accumulated reasons: the
penalty exceeds the (zero) weight sum. -/
def c5Result : KYCResult :=
  { status := .REQUIRES_REVIEW, score := 0,
    checks := ⟨false, false, false, false, false⟩,
    extractedData := ⟨none, none, none, none⟩,
    riskFactors := ["Document OCR failed", "Document validation failed"],
    recommendations := [] }

/-- Witness for C5: with zero passed checks and two reasons, the score
clamps to exactly 0. -/
theorem C5_kyc_score_clamped_witness : calculateKYCScore c5Result = 0 :=
  (C5_kyc_score_clamped c5Result).2.2 (by norm_num [checkWeightSum, c5Result])

/-- The external collaborators of the KYC pipeline, passed in as
deterministic functions (the source stubs several of them with random
numbers; the embedding leaves them arbitrary). -/
structure KYCEnv where
  extractPatterns : String → String → List (String × String)
  validateDocument : Document → List (String × String) → Bool
  faceMatch : Document → Document → Bool
  livenessCheck : Document → Bool
  verifyAddressExt : String → Bool
  checkSanctionsList : String → Bool

/-- The persistence state read by `verifyIdentity`: the order table (only
the identifiers matter to the pipeline) and the document table. -/
structure KycDb where
  orderIds : List String
  documents : List Document

/-- JS falsiness of an optional string: `undefined`/`null` and `""`. -/
def jsFalsyStr : Option String → Bool
  | none => true
  | some s => s == ""

/-- The `result` literal initialised at the top of `verifyIdentity`. -/
def initialKYCResult : KYCResult :=
  { status := .REQUIRES_REVIEW, score := 0,
    checks := ⟨false, false, false, false, false⟩,
    extractedData := ⟨none, none, none, none⟩,
    riskFactors := [], recommendations := [] }

/-- The qualifying identity-document types. -/
def idDocTypes : List String := ["ID_CARD", "PASSPORT", "DRIVERS_LICENSE"]

/-- Source `KYCService.findSelfieDocument`: first document of the order with
file type SELFIE. -/
def findSelfieDocument (db : KycDb) (orderId : String) : Option Document :=
  db.documents.find? (fun d => d.orderId == orderId && d.fileType == "SELFIE")

/-- Source `KYCService.verifyAddress`: a missing or empty address is falsy and
returns false before the external check runs. -/
def jsVerifyAddress (env : KYCEnv) (address : Option String) : Bool :=
  match address with
  | none => false
  | some a => if a == "" then false else env.verifyAddressExt a

/-- One step of `extractPersonalInfo`'s loop over the extracted pattern
entries: the pattern key is sniffed for the substrings NAME / DOB /
NUMBER. -/
def extractPersonalInfoStep (r : KYCResult) (kv : String × String) : KYCResult :=
  if jsIncludes kv.1 "NAME" then
    { r with extractedData := { r.extractedData with fullName := some kv.2 } }
  else if jsIncludes kv.1 "DOB" then
    { r with extractedData := { r.extractedData with dateOfBirth := some kv.2 } }
  else if jsIncludes kv.1 "NUMBER" then
    { r with extractedData := { r.extractedData with documentNumber := some kv.2 } }
  else r

/-- Source `KYCService.extractPersonalInfo`. -/
def extractPersonalInfo (extracted : List (String × String)) (r : KYCResult) : KYCResult :=
  extracted.foldl extractPersonalInfoStep r

/-- Source `KYCService.performDocumentChecks`: face match and liveness when a
selfie document exists, then address verification. -/
def performDocumentChecks (env : KYCEnv) (db : KycDb) (doc : Document) (r : KYCResult) :
    KYCResult :=
  let r1 :=
    match findSelfieDocument db doc.orderId with
    | some selfieDoc =>
      { r with checks := { r.checks with
          faceMatch := env.faceMatch doc selfieDoc,
          livenessCheck := env.livenessCheck selfieDoc } }
    | none => r
  { r1 with checks := { r1.checks with
      addressVerification := jsVerifyAddress env r1.extractedData.address } }

/-- Source `KYCService.processIdentityDocument`: re-fetch the document, bail
out with a reason on missing/falsy OCR text, set `documentValid` from
the authenticity check, and on success extract personal info and run the
document checks; on failure record the validation-failed reason. -/
def processIdentityDocument (env : KYCEnv) (db : KycDb) (documentId : String) (r : KYCResult) :
    KYCResult :=
  match db.documents.find? (fun d => d.id == documentId) with
  | none => { r with riskFactors := r.riskFactors ++ ["Document OCR failed"] }
  | some document =>
    if jsFalsyStr document.ocrText then
      { r with riskFactors := r.riskFactors ++ ["Document OCR failed"] }
    else if env.validateDocument document
        (env.extractPatterns (document.ocrText.getD "") document.fileType) then
      performDocumentChecks env db document
        (extractPersonalInfo
          (env.extractPatterns (document.ocrText.getD "") document.fileType)
          { r with checks := { r.checks with documentValid :=
              (env.validateDocument document
                (env.extractPatterns (document.ocrText.getD "") document.fileType)) } })
    else
      { r with
        checks := { r.checks with documentValid :=
          (env.validateDocument document
            (env.extractPatterns (document.ocrText.getD "") document.fileType)) },
        riskFactors := r.riskFactors ++ ["Document validation failed"] }

/-- Source `KYCService.performSanctionsCheck`: a falsy full name records the
no-name reason and leaves the checklist untouched; otherwise
`sanctionsCheck` is set to the negated hit and a hit records the
found-on-list reason. -/
def performSanctionsCheck (env : KYCEnv) (r : KYCResult) : KYCResult :=
  if jsFalsyStr r.extractedData.fullName then
    { r with riskFactors := r.riskFactors ++ ["No name available for sanctions check"] }
  else if env.checkSanctionsList (r.extractedData.fullName.getD "") then
    { r with
      checks := { r.checks with
        sanctionsCheck := !env.checkSanctionsList (r.extractedData.fullName.getD "") },
      riskFactors := r.riskFactors ++ ["Name found on sanctions list"] }
  else
    { r with checks := { r.checks with
        sanctionsCheck := !env.checkSanctionsList (r.extractedData.fullName.getD "") } }

/-- The document loop of `verifyIdentity`. -/
def kycAfterDocs (env : KYCEnv) (db : KycDb) (docs : List Document) : KYCResult :=
  docs.foldl (fun r d => processIdentityDocument env db d.id r) initialKYCResult

/-- The tail of the `verifyIdentity` pipeline after the structural
checks: document loop, sanctions screening, scoring, status. -/
def runKycPipeline (env : KYCEnv) (db : KycDb) (docs : List Document) : KYCResult :=
  let r2 := performSanctionsCheck env (kycAfterDocs env db docs)
  let r3 := { r2 with score := calculateKYCScore r2 }
  { r3 with status := determineKYCStatus r3 }

/-- The caller-visible structural failures of `verifyIdentity`. -/
inductive KycError
  | notFound
  | noIdentityDocuments
deriving DecidableEq, Repr

/-- The `KycVerification` row written on success (the serialized
`verificationData` blob is the result itself and is not duplicated
here). -/
structure KycRecord where
  orderId : String
  status : KycStatus
  riskScore : ℚ
deriving DecidableEq, Repr

/-- The order's attached documents whose declared type qualifies as an
identity document (`order.documents.filter(doc =>
['ID_CARD','PASSPORT','DRIVERS_LICENSE'].includes(doc.fileType))`, with
the order's `documents` relation being the document rows carrying its
id). -/
def orderIdDocuments (db : KycDb) (orderId : String) : List Document :=
  (db.documents.filter (fun d => d.orderId == orderId)).filter
    (fun d => idDocTypes.contains d.fileType)

/-- Source `KYCService.verifyIdentity`: order lookup, identity-document filter,
then the pipeline; the second component is the list of persistence
writes performed.  In this deterministic embedding every collaborator is
total, so the source's catch-all REJECTED fallback is unreachable and
not modelled. -/
def verifyIdentity (env : KYCEnv) (db : KycDb) (orderId : String) :
    Except KycError KYCResult × List KycRecord :=
  if orderId ∈ db.orderIds then
    if (orderIdDocuments db orderId).length = 0 then
      (Except.error KycError.noIdentityDocuments, [])
    else
      (Except.ok (runKycPipeline env db (orderIdDocuments db orderId)),
       [⟨orderId, (runKycPipeline env db (orderIdDocuments db orderId)).status,
         (runKycPipeline env db (orderIdDocuments db orderId)).score⟩])
  else (Except.error KycError.notFound, [])

/-- C6: `verifyIdentity` fails with NotFound for a missing order and
with NoIdentityDocuments when no attached document has a qualifying
type; in both cases no verification record is written and no result is
returned. -/
theorem C6_structural_failures (env : KYCEnv) (db : KycDb) (orderId : String) :
    (orderId ∉ db.orderIds →
      verifyIdentity env db orderId = (Except.error KycError.notFound, []))
    ∧ (orderId ∈ db.orderIds →
      orderIdDocuments db orderId = [] →
      verifyIdentity env db orderId = (Except.error KycError.noIdentityDocuments, [])) := by
  constructor
  · intro h
    unfold verifyIdentity
    rw [if_neg h]
  · intro h hdocs
    have hlen : (orderIdDocuments db orderId).length = 0 := by
      rw [hdocs]
      rfl
    unfold verifyIdentity
    rw [if_pos h, if_pos hlen]

/-- An environment of trivial collaborators for concrete runs. -/
def trivialEnv : KYCEnv :=
  { extractPatterns := fun _ _ => [], validateDocument := fun _ _ => true,
    faceMatch := fun _ _ => true, livenessCheck := fun _ => true,
    verifyAddressExt := fun _ => true, checkSanctionsList := fun _ => false }

/-- Witness for C6: an absent order and an order with no qualifying
documents, both at concrete inputs. -/
theorem C6_structural_failures_witness :
    verifyIdentity trivialEnv ⟨[], []⟩ "order-x" = (Except.error KycError.notFound, [])
    ∧ verifyIdentity trivialEnv ⟨["order-y"], []⟩ "order-y" =
        (Except.error KycError.noIdentityDocuments, []) :=
  ⟨(C6_structural_failures trivialEnv ⟨[], []⟩ "order-x").1 (by simp),
   (C6_structural_failures trivialEnv ⟨["order-y"], []⟩ "order-y").2 (by simp) rfl⟩

theorem performDocumentChecks_sanctionsCheck (env : KYCEnv) (db : KycDb) (doc : Document)
    (r : KYCResult) :
    (performDocumentChecks env db doc r).checks.sanctionsCheck = r.checks.sanctionsCheck := by
  unfold performDocumentChecks
  cases findSelfieDocument db doc.orderId <;> rfl

theorem extractPersonalInfoStep_checks (r : KYCResult) (kv : String × String) :
    (extractPersonalInfoStep r kv).checks = r.checks := by
  unfold extractPersonalInfoStep
  split_ifs <;> rfl

theorem extractPersonalInfo_checks (extracted : List (String × String)) (r : KYCResult) :
    (extractPersonalInfo extracted r).checks = r.checks := by
  induction extracted generalizing r with
  | nil => rfl
  | cons kv t ih =>
    show (extractPersonalInfo t (extractPersonalInfoStep r kv)).checks = r.checks
    rw [ih, extractPersonalInfoStep_checks]

theorem processIdentityDocument_sanctionsCheck (env : KYCEnv) (db : KycDb)
    (documentId : String) (r : KYCResult) :
    (processIdentityDocument env db documentId r).checks.sanctionsCheck =
      r.checks.sanctionsCheck := by
  unfold processIdentityDocument
  cases db.documents.find? (fun d => d.id == documentId) with
  | none => rfl
  | some document =>
    dsimp only
    by_cases ht : jsFalsyStr document.ocrText = true
    · rw [if_pos ht]
    · rw [if_neg ht]
      by_cases hv : env.validateDocument document
          (env.extractPatterns (document.ocrText.getD "") document.fileType) = true
      · rw [if_pos hv, performDocumentChecks_sanctionsCheck, extractPersonalInfo_checks]
      · rw [if_neg hv]

theorem kycAfterDocs_sanctionsCheck (env : KYCEnv) (db : KycDb) (docs : List Document) :
    (kycAfterDocs env db docs).checks.sanctionsCheck = false := by
  suffices h : ∀ (l : List Document) (r : KYCResult),
      (l.foldl (fun r d => processIdentityDocument env db d.id r) r).checks.sanctionsCheck =
        r.checks.sanctionsCheck by
    exact h docs initialKYCResult
  intro l
  induction l with
  | nil => intro r; rfl
  | cons d t ih =>
    intro r
    show (t.foldl _ (processIdentityDocument env db d.id r)).checks.sanctionsCheck = _
    rw [ih, processIdentityDocument_sanctionsCheck]

theorem runKycPipeline_no_name (env : KYCEnv) (db : KycDb) (docs : List Document)
    (hname : (runKycPipeline env db docs).extractedData.fullName = none) :
    "No name available for sanctions check" ∈ (runKycPipeline env db docs).riskFactors
    ∧ (runKycPipeline env db docs).checks.sanctionsCheck = false
    ∧ (runKycPipeline env db docs).status = KycStatus.REJECTED := by
  have hmention : mentionsSanctions "No name available for sanctions check" = true := by decide
  by_cases hf : jsFalsyStr (kycAfterDocs env db docs).extractedData.fullName = true
  · have hps : performSanctionsCheck env (kycAfterDocs env db docs) =
        { kycAfterDocs env db docs with riskFactors :=
            (kycAfterDocs env db docs).riskFactors ++
              ["No name available for sanctions check"] } := by
      unfold performSanctionsCheck
      rw [if_pos hf]
    refine ⟨?_, ?_, ?_⟩
    · show "No name available for sanctions check" ∈
        (performSanctionsCheck env (kycAfterDocs env db docs)).riskFactors
      rw [hps]
      simp
    · show (performSanctionsCheck env (kycAfterDocs env db docs)).checks.sanctionsCheck = false
      rw [hps]
      exact kycAfterDocs_sanctionsCheck env db docs
    · show determineKYCStatus
        { performSanctionsCheck env (kycAfterDocs env db docs) with
          score := calculateKYCScore (performSanctionsCheck env (kycAfterDocs env db docs)) } =
        KycStatus.REJECTED
      have hrf : ({ performSanctionsCheck env (kycAfterDocs env db docs) with
          score := calculateKYCScore (performSanctionsCheck env (kycAfterDocs env db docs)) }
            : KYCResult).riskFactors =
          (kycAfterDocs env db docs).riskFactors ++
            ["No name available for sanctions check"] := by
        show (performSanctionsCheck env (kycAfterDocs env db docs)).riskFactors = _
        rw [hps]
      unfold determineKYCStatus
      rw [if_neg, if_pos]
      · right
        rw [hrf]
        simp [hmention]
      · rintro ⟨-, hlen⟩
        rw [hrf] at hlen
        simp at hlen
  · exfalso
    have hed : (performSanctionsCheck env (kycAfterDocs env db docs)).extractedData =
        (kycAfterDocs env db docs).extractedData := by
      unfold performSanctionsCheck
      rw [if_neg hf]
      split <;> rfl
    have hname' : (kycAfterDocs env db docs).extractedData.fullName = none := by
      have hpe : (runKycPipeline env db docs).extractedData =
          (performSanctionsCheck env (kycAfterDocs env db docs)).extractedData := rfl
      rw [hpe, hed] at hname
      exact hname
    rw [hname'] at hf
    exact hf rfl

/-- C10: whenever `verifyIdentity` completes its pipeline with no full
name extracted, the returned result's risk factors contain the reason
"No name available for sanctions check", `sanctionsCheck` is false, and
— because that reason contains the substring "sanctions" — the final
status is REJECTED, regardless of the computed score. -/
theorem C10_missing_name_rejects (env : KYCEnv) (db : KycDb) (orderId : String)
    (r : KYCResult) (recs : List KycRecord)
    (hrun : verifyIdentity env db orderId = (Except.ok r, recs))
    (hname : r.extractedData.fullName = none) :
    "No name available for sanctions check" ∈ r.riskFactors
    ∧ r.checks.sanctionsCheck = false
    ∧ r.status = KycStatus.REJECTED := by
  by_cases h1 : orderId ∈ db.orderIds
  · by_cases h2 : (orderIdDocuments db orderId).length = 0
    · exfalso
      unfold verifyIdentity at hrun
      rw [if_pos h1, if_pos h2] at hrun
      simp at hrun
    · unfold verifyIdentity at hrun
      rw [if_pos h1, if_neg h2] at hrun
      have hr : runKycPipeline env db (orderIdDocuments db orderId) = r := by
        have hfst := congrArg Prod.fst hrun
        simpa using hfst
      rw [← hr] at hname
      rw [← hr]
      exact runKycPipeline_no_name env db (orderIdDocuments db orderId) hname
  · exfalso
    unfold verifyIdentity at hrun
    rw [if_neg h1] at hrun
    simp at hrun

/-- A stored order with one ID_CARD document whose OCR text contains no
extractable patterns (the trivial environment extracts nothing), so no
full name is ever extracted. -/
def w10Doc : Document :=
  { id := "d1", orderId := "o1", fileType := "ID_CARD", ocrText := some "SAMPLE TEXT",
    ocrConfidence := none, status := "PROCESSED" }

/-- Database for the C10 witness run. -/
def w10Db : KycDb := { orderIds := ["o1"], documents := [w10Doc] }

/-- Witness for C10: a concrete successful run that extracts no name
ends REJECTED with the no-name reason recorded and sanctionsCheck
false. -/
theorem C10_missing_name_rejects_witness :
    "No name available for sanctions check" ∈
      (runKycPipeline trivialEnv w10Db (orderIdDocuments w10Db "o1")).riskFactors
    ∧ (runKycPipeline trivialEnv w10Db (orderIdDocuments w10Db "o1")).checks.sanctionsCheck
        = false
    ∧ (runKycPipeline trivialEnv w10Db (orderIdDocuments w10Db "o1")).status
        = KycStatus.REJECTED :=
  C10_missing_name_rejects trivialEnv w10Db "o1"
    (runKycPipeline trivialEnv w10Db (orderIdDocuments w10Db "o1"))
    [⟨"o1", (runKycPipeline trivialEnv w10Db (orderIdDocuments w10Db "o1")).status,
      (runKycPipeline trivialEnv w10Db (orderIdDocuments w10Db "o1")).score⟩]
    rfl rfl

end DollarPe
